import Mathlib

/-!
Shallow embedding of the BitingLip CLI gateway client layer:
the request dispatcher and transport configuration of
src/cli/client.py (class BitingLipClient), URL joining and
configuration resolution of src/cli/config.py, and the worker
registration facade of src/cli/client.py together with the data it
receives from src/cli/commands/workers.py.

The transport is a requests.Session mounting an HTTPAdapter with
urllib3 Retry(total = api_retries, status_forcelist = [429, 500, 502,
503, 504], backoff_factor = 1, raise_on_status = False).  The retry
loop below reproduces the urllib3 urlopen behaviour under exactly this
configuration: a response whose status lies in the forcelist is
retried only when the request method belongs to the default
allowed_methods set (the constructor does not override it), each retry
consumes one unit of the total budget, and on exhaustion the last
response is returned rather than raised because raise_on_status is
False.
-/

/-- JSON values as produced by Python json decoding of a response body. -/
inductive Json where
  | null
  | bool (b : Bool)
  | num (n : Int)
  | str (s : String)
  | arr (elems : List Json)
  | obj (fields : List (String × Json))

/-- HTTP response as the client observes it: status code, reason
phrase, raw body text, and the result of response.json() — none when
decoding raises JSONDecodeError. -/
structure HttpResponse where
  status : Nat
  reason : String
  text : String
  jsonBody : Option Json

/-- Default allowed_methods of urllib3 Retry; BitingLipClient passes no
override, so status-triggered retries apply only to these methods. -/
def DEFAULT_ALLOWED_METHODS : List String :=
  ["HEAD", "GET", "PUT", "DELETE", "OPTIONS", "TRACE"]

/-- Status forcelist configured in BitingLipClient.init. -/
def STATUS_FORCELIST : List Nat := [429, 500, 502, 503, 504]

/-- Retry.is_retry under the configured policy for responses without a
Retry-After header: the method must be in the default allowlist and the
status in the forcelist. -/
def isRetry (method : String) (status : Nat) : Bool :=
  DEFAULT_ALLOWED_METHODS.contains method && STATUS_FORCELIST.contains status

/-- Retry loop of urllib3 urlopen under the configured policy.  The
first argument of the recursion is the remaining retry budget (initially
Retry.total), the second the index of the next attempt; server gives the
response each attempt receives.  When the budget is spent, Retry.increment
raises MaxRetryError, which raise_on_status = False converts into
returning the last response.  The result pairs the final response with
the number of attempts made. -/
def sendWithRetry (method : String) (server : Nat → HttpResponse) :
    Nat → Nat → HttpResponse × Nat
  | 0, k => (server k, k + 1)
  | total + 1, k =>
    let r := server k
    if isRetry method r.status then sendWithRetry method server total (k + 1)
    else (r, k + 1)

/-- Transport outcome of session.request after the retry policy ran:
either a final HTTP response, or a requests.RequestException (timeout,
connection refused, DNS failure and the like) carrying its text. -/
inductive TransportOutcome where
  | response (r : HttpResponse)
  | requestException (msg : String)

/-- Observable result of BitingLipClient._make_request: a returned
payload, a raised BitingLipAPIError (message, optional status code,
optional decoded error body), or a Python exception escaping the method
uncaught. -/
inductive DispatchResult where
  | payload (p : Json)
  | apiError (message : Json) (status_code : Option Nat) (response : Option Json)
  | pythonError (exc : String)

/-- Boolean test for the BitingLipAPIError variant. -/
def DispatchResult.isApiError : DispatchResult → Bool
  | .apiError _ _ _ => true
  | _ => false

/-- Boolean test for the transport-exception variant. -/
def TransportOutcome.isRequestException : TransportOutcome → Bool
  | .requestException _ => true
  | _ => false

/-- Python dict.get key dflt on the field list of a decoded JSON object. -/
def dictGet (fields : List (String × Json)) (key : String) (dflt : Json) : Json :=
  match fields.lookup key with
  | some v => v
  | none => dflt

/-- Response handling of BitingLipClient._make_request
(src/cli/client.py lines 94 to 141).  Status 200 and 201 return the
decoded body, falling back to a synthesized message object on decode
failure; 204 returns a fixed message without touching the body; every
other status raises BitingLipAPIError whose message comes from
error_data.get applied to the decoded body with the fallback
"HTTP code: reason" — when the body decodes to a JSON value that is not
an object, that .get call raises AttributeError, which no handler in the
method catches.  A requests.RequestException from the transport is
caught and re-raised as BitingLipAPIError with the prefix
"Request failed: " and no status code. -/
def make_request (outcome : TransportOutcome) : DispatchResult :=
  match outcome with
  | .requestException msg =>
    .apiError (.str ("Request failed: " ++ msg)) none none
  | .response r =>
    if r.status = 200 then
      match r.jsonBody with
      | some j => .payload j
      | none => .payload (.obj [("message", .str r.text)])
    else if r.status = 201 then
      match r.jsonBody with
      | some j => .payload j
      | none => .payload (.obj [("message", .str "Created successfully")])
    else if r.status = 204 then
      .payload (.obj [("message", .str "Success")])
    else
      match r.jsonBody with
      | none =>
        .apiError (.str ("HTTP " ++ toString r.status ++ ": " ++ r.reason))
          (some r.status) none
      | some (.obj fields) =>
        .apiError
          (dictGet fields "detail"
            (.str ("HTTP " ++ toString r.status ++ ": " ++ r.reason)))
          (some r.status) (some (.obj fields))
      | some _ => .pythonError "AttributeError"

/-- Full client call: session.request runs the retry policy starting at
attempt 0, then _make_request classifies the final response.  Returns
the dispatch result and the attempt count. -/
def clientRequest (method : String) (server : Nat → HttpResponse)
    (api_retries : Nat) : DispatchResult × Nat :=
  let p := sendWithRetry method server api_retries 0
  (make_request (.response p.1), p.2)

/-- Python str.rstrip with the single character slash. -/
def rstripSlash (s : String) : String :=
  String.mk ((s.data.reverse.dropWhile (fun c => c == '/')).reverse)

/-- Python str.lstrip with the single character slash. -/
def lstripSlash (s : String) : String :=
  String.mk (s.data.dropWhile (fun c => c == '/'))

/-- Function get_api_url of src/cli/config.py: strip trailing slashes
from the configured base URL; when the endpoint is nonempty (Python
truthiness), strip its leading slashes and join with a single slash,
otherwise return the stripped base alone. -/
def get_api_url (api_url : String) (endpoint : String) : String :=
  let base_url := rstripSlash api_url
  if endpoint = "" then base_url
  else base_url ++ "/" ++ lstripSlash endpoint

/-- Settings fields of class CLIConfig in src/cli/config.py with their
declared defaults; enum-valued fields are carried as the corresponding
plain strings. -/
structure CLIConfig where
  api_url : String := "http://localhost:8080"
  api_timeout : Int := 30
  api_retries : Int := 3
  api_key : Option String := none
  output_format : String := "table"
  no_color : Bool := false
  quiet : Bool := false
  verbose : Bool := false
  log_level : String := "INFO"
  log_file : Option String := none
  default_page_size : Int := 20
  watch_interval : Int := 5
  model_manager_url : Option String := none
  cluster_manager_url : Option String := none
  task_manager_url : Option String := none

/-- One source of values for the gateway connection settings: an
explicit constructor argument or a BITINGLIP-prefixed environment
variable may supply each field; none means not provided there. -/
structure ConfigSource where
  api_url : Option String := none
  api_timeout : Option Int := none
  api_retries : Option Int := none
  api_key : Option String := none

/-- ConfigError is the configuration failure the specification names.
The source declares no such type; the embedding keeps it so that
resolution can be stated as fallible the way the specification
describes, and then shown never to fail. -/
inductive ConfigError where
  | invalid (message : String)

/-- Resolution of CLIConfig under pydantic BaseSettings semantics for
the connection fields declared in src/cli/config.py: explicit
constructor arguments win over environment values, which win over the
field defaults.  The class declares no validators, so resolution
accepts any string for api_url and any integer for api_timeout and
api_retries and never fails. -/
def resolveConfig (overrides env : ConfigSource) : Except ConfigError CLIConfig :=
  .ok {
    api_url := (overrides.api_url.orElse (fun _ => env.api_url)).getD "http://localhost:8080",
    api_timeout := (overrides.api_timeout.orElse (fun _ => env.api_timeout)).getD 30,
    api_retries := (overrides.api_retries.orElse (fun _ => env.api_retries)).getD 3,
    api_key := overrides.api_key.orElse (fun _ => env.api_key) }

/-- One logical request as a facade hands it to _make_request. -/
structure RequestDescriptor where
  method : String
  endpoint : String
  jsonBody : Option Json := none

/-- Observable first step of a facade call: either it issues an HTTP
request, or it fails with a validation error before any network
activity.  The source facades never take the validation branch; the
constructor exists so that the claimed behaviour is expressible. -/
inductive FacadeAction where
  | httpCall (d : RequestDescriptor)
  | validationError (msg : String)

/-- Boolean test for the validation-error variant. -/
def FacadeAction.isValidationError : FacadeAction → Bool
  | .validationError _ => true
  | _ => false

/-- Method BitingLipClient.register_worker of src/cli/client.py: posts
the given worker data to /api/workers unconditionally, with no argument
validation of any kind. -/
def register_worker (worker_data : Json) : FacadeAction :=
  .httpCall { method := "POST", endpoint := "/api/workers", jsonBody := some worker_data }

/-- Worker payload built by the register command of
src/cli/commands/workers.py before it calls the client: name, type,
max_load and status "available" always; host and port only when truthy
(an empty host string or a port of 0 is dropped).  The capabilities and
metadata options, which only add further fields the same way, are
omitted here. -/
def registerWorkerCommandData (name worker_type : String)
    (host : Option String) (port : Option Int) (max_load : Int) : Json :=
  Json.obj
    ([("name", .str name), ("type", .str worker_type),
      ("max_load", .num max_load), ("status", .str "available")]
      ++ (match host with
          | some h => if h = "" then [] else [("host", .str h)]
          | none => [])
      ++ (match port with
          | some p => if p = 0 then [] else [("port", .num p)]
          | none => []))

/-- Concrete 503 response with an undecodable body, used at concrete
instantiations. -/
def resp503 : HttpResponse :=
  { status := 503, reason := "Service Unavailable", text := "unavailable", jsonBody := none }

/-- Concrete 404 response whose body is the valid JSON array of no
elements. -/
def resp404array : HttpResponse :=
  { status := 404, reason := "Not Found", text := "[]", jsonBody := some (.arr []) }

/-- Concrete 404 response carrying a detail field in a JSON object body. -/
def resp404detail : HttpResponse :=
  { status := 404, reason := "Not Found", text := "",
    jsonBody := some (.obj [("detail", .str "model not found")]) }

/-- Message the specification prescribes for an error response: the
detail field of the decoded body when the body decodes to a JSON object
(falling back to "HTTP code: reason" when the field is missing), and
that same fallback when the body is not valid JSON. -/
def specErrorMessage (r : HttpResponse) : Json :=
  match r.jsonBody with
  | some (.obj fields) =>
    dictGet fields "detail" (.str ("HTTP " ++ toString r.status ++ ": " ++ r.reason))
  | _ => .str ("HTTP " ++ toString r.status ++ ": " ++ r.reason)

/-- Concrete 200 response with a body that is not valid JSON. -/
def resp200text : HttpResponse :=
  { status := 200, reason := "OK", text := "plain body", jsonBody := none }

/-- Concrete 201 response with a body that is not valid JSON. -/
def resp201empty : HttpResponse :=
  { status := 201, reason := "Created", text := "not json", jsonBody := none }

/-- When every response is retryable for the given method, the retry
loop consumes the whole budget and returns the last response with the
full attempt count. -/
theorem sendWithRetry_exhausts (method : String) (server : Nat → HttpResponse)
    (hm : DEFAULT_ALLOWED_METHODS.contains method = true)
    (hs : ∀ k, STATUS_FORCELIST.contains (server k).status = true) :
    ∀ total k, sendWithRetry method server total k = (server (total + k), total + k + 1) := by
  intro total
  induction total with
  | zero => intro k; simp [sendWithRetry]
  | succ t ih =>
    intro k
    have hr : isRetry method (server k).status = true := by
      unfold isRetry
      rw [hm, hs k]
      rfl
    simp only [sendWithRetry, hr, if_true]
    rw [ih (k + 1)]
    have hk : t + (k + 1) = t + 1 + k := by omega
    rw [hk]

/-- On an error status with a body that is absent or decodes to a JSON
object, the dispatcher raises BitingLipAPIError with the message given
by the detail rule, the response status and the decoded body. -/
theorem make_request_error (r : HttpResponse)
    (h200 : r.status ≠ 200) (h201 : r.status ≠ 201) (h204 : r.status ≠ 204)
    (hb : r.jsonBody = none ∨ ∃ fields, r.jsonBody = some (.obj fields)) :
    make_request (.response r) = .apiError (specErrorMessage r) (some r.status) r.jsonBody := by
  rcases hb with hnone | ⟨fields, hf⟩
  · simp [make_request, specErrorMessage, h200, h201, h204, hnone]
  · simp [make_request, specErrorMessage, h200, h201, h204, hf]

/-- Status extraction: whenever a response (as opposed to a transport
exception) leads to a BitingLipAPIError, the error carries that
response's status code. -/
theorem make_request_response_status (r : HttpResponse) (m : Json)
    (s : Option Nat) (b : Option Json)
    (h : make_request (.response r) = .apiError m s b) : s = some r.status := by
  simp only [make_request] at h
  split at h
  · split at h <;> exact DispatchResult.noConfusion h
  · split at h
    · split at h <;> exact DispatchResult.noConfusion h
    · split at h
      · exact DispatchResult.noConfusion h
      · split at h
        all_goals first
          | exact DispatchResult.noConfusion h
          | (injection h with h1 h2 h3; exact h2.symm)

/-- Stripping trailing slashes ignores one appended slash. -/
theorem rstripSlash_append_slash (base : String) :
    rstripSlash (base ++ "/") = rstripSlash base := by
  have hd : (base ++ "/").data = base.data ++ ['/'] := by
    rw [String.data_append]
  simp [rstripSlash, hd, List.dropWhile_cons]

/-- Stripping leading slashes ignores one prepended slash. -/
theorem lstripSlash_cons_slash (p : String) :
    lstripSlash ("/" ++ p) = lstripSlash p := by
  have hd : ("/" ++ p).data = '/' :: p.data := by
    rw [String.data_append]
    rfl
  simp [lstripSlash, hd, List.dropWhile_cons]

/-- Prepending a slash never yields the empty string. -/
theorem slash_append_ne_empty (p : String) : ("/" ++ p) ≠ "" := by
  rw [Ne, String.ext_iff, String.data_append]
  simp [show ("/" : String).data = ['/'] from rfl, show ("" : String).data = [] from rfl]

/-- Claim C1, counterexample: with max_retries configured to 3, a POST
request whose response is always 503 makes exactly one attempt rather
than 3 + 1 = 4 — the status forcelist only triggers for methods in the
urllib3 default allowlist, which excludes POST. -/
theorem c1_post_not_retried :
    (clientRequest "POST" (fun _ => resp503) 3).2 = 1 ∧ (1 : Nat) ≠ 3 + 1 :=
  ⟨rfl, by decide⟩

/-- Claim C1 (amended): for a configuration with max_retries = n, a
request whose method lies in the default retry allowlist and whose
response is always 503 makes exactly n + 1 attempts, and — provided the
final body is not valid JSON or decodes to a JSON object — surfaces a
BitingLipAPIError carrying status code 503. -/
theorem c1_retry_exhaustion (n : Nat) (method : String) (server : Nat → HttpResponse)
    (hm : DEFAULT_ALLOWED_METHODS.contains method = true)
    (hs : ∀ k, (server k).status = 503)
    (hb : (server n).jsonBody = none ∨ ∃ fields, (server n).jsonBody = some (.obj fields)) :
    (clientRequest method server n).2 = n + 1 ∧
    ∃ m b, (clientRequest method server n).1 = .apiError m (some 503) b := by
  have hs' : ∀ k, STATUS_FORCELIST.contains (server k).status = true := fun k => by
    rw [hs k]
    rfl
  have hsend := sendWithRetry_exhausts method server hm hs' n 0
  simp only [Nat.add_zero] at hsend
  have hcr : clientRequest method server n = (make_request (.response (server n)), n + 1) := by
    simp [clientRequest, hsend]
  have herr := make_request_error (server n)
    (by rw [hs n]; decide) (by rw [hs n]; decide) (by rw [hs n]; decide) hb
  refine ⟨by rw [hcr], specErrorMessage (server n), (server n).jsonBody, ?_⟩
  rw [hcr]
  simpa [hs n] using herr

/-- Claim C1 witness: two retries, a GET request, an always-503 server. -/
theorem c1_retry_exhaustion_witness :
    (clientRequest "GET" (fun _ => resp503) 2).2 = 2 + 1 ∧
    ∃ m b, (clientRequest "GET" (fun _ => resp503) 2).1 = .apiError m (some 503) b :=
  c1_retry_exhaustion 2 "GET" (fun _ => resp503) (by decide) (fun _ => rfl) (Or.inl rfl)

/-- Claim C2: a response whose status lies in the non-retryable 4xx set
is never in the status forcelist, so the transport makes exactly one
attempt and hands that first response to the dispatcher, for every
method and every configured retry budget. -/
theorem c2_no_retry (method : String) (server : Nat → HttpResponse) (n : Nat)
    (h : (server 0).status ∈ [400, 401, 403, 404, 409, 422]) :
    sendWithRetry method server n 0 = (server 0, 1) ∧
    (clientRequest method server n).2 = 1 := by
  have hf : STATUS_FORCELIST.contains (server 0).status = false := by
    simp only [List.mem_cons, List.not_mem_nil, or_false] at h
    rcases h with h | h | h | h | h | h <;> rw [h] <;> rfl
  have hr : isRetry method (server 0).status = false := by
    unfold isRetry
    rw [hf, Bool.and_false]
  have hsend : sendWithRetry method server n 0 = (server 0, 1) := by
    cases n with
    | zero => simp [sendWithRetry]
    | succ t => simp [sendWithRetry, hr]
  exact ⟨hsend, by simp [clientRequest, hsend]⟩

/-- Claim C2 witness: a GET request answered 404 with three retries
configured still makes a single attempt. -/
theorem c2_no_retry_witness :
    (clientRequest "GET" (fun _ => resp404array) 3).2 = 1 :=
  (c2_no_retry "GET" (fun _ => resp404array) 3 (by decide)).2

/-- Claim C3: every transport-level requests.RequestException is caught
and converted to a BitingLipAPIError whose message is the exception text
prefixed with "Request failed: " and whose status code and decoded body
are both absent; the result is an ApiError, never a propagated
transport-native exception. -/
theorem c3_transport_exception_normalized (msg : String) :
    make_request (.requestException msg) =
      .apiError (.str ("Request failed: " ++ msg)) none none ∧
    (make_request (.requestException msg)).isApiError = true :=
  ⟨rfl, rfl⟩

/-- Claim C4, counterexample: a 404 response whose body is the valid
JSON array of no elements makes the dispatcher raise AttributeError
(error_data.get called on a list) instead of producing a
BitingLipAPIError. -/
theorem c4_nonobject_body_attribute_error :
    make_request (.response resp404array) = .pythonError "AttributeError" ∧
    (make_request (.response resp404array)).isApiError = false :=
  ⟨rfl, rfl⟩

/-- Claim C4 (amended): for every response whose status is none of 200,
201, 204 and whose body either fails to decode as JSON or decodes to a
JSON object, the dispatcher produces a BitingLipAPIError carrying that
status and the decoded body, with message equal to the body's detail
field when present and "HTTP code: reason phrase" otherwise; in
particular a 404 with body detail "model not found" yields message
"model not found" and status 404.  A body decoding to a non-object JSON
value instead raises AttributeError. -/
theorem c4_error_detail_mapping (r : HttpResponse)
    (h200 : r.status ≠ 200) (h201 : r.status ≠ 201) (h204 : r.status ≠ 204)
    (hb : r.jsonBody = none ∨ ∃ fields, r.jsonBody = some (.obj fields)) :
    make_request (.response r) = .apiError (specErrorMessage r) (some r.status) r.jsonBody ∧
    make_request (.response resp404detail) =
      .apiError (.str "model not found") (some 404)
        (some (.obj [("detail", .str "model not found")])) :=
  ⟨make_request_error r h200 h201 h204 hb, rfl⟩

/-- Claim C4 witness: the concrete 404 detail response satisfies the
hypotheses and the mapping. -/
theorem c4_error_detail_mapping_witness :
    make_request (.response resp404detail) =
      .apiError (specErrorMessage resp404detail) (some resp404detail.status)
        resp404detail.jsonBody :=
  (c4_error_detail_mapping resp404detail (by decide) (by decide) (by decide)
    (Or.inr ⟨[("detail", .str "model not found")], rfl⟩)).1

/-- Claim C5: joining a base URL with an endpoint is insensitive to a
trailing slash on the base and to a leading slash on a nonempty
endpoint, and the concrete base joined with both spellings of the
models path gives the identical URL with no duplicated separator. -/
theorem c5_url_join (base p : String) (hp : p ≠ "") :
    get_api_url (base ++ "/") p = get_api_url base p ∧
    get_api_url base ("/" ++ p) = get_api_url base p ∧
    get_api_url "http://host:8080" "/api/models" = "http://host:8080/api/models" ∧
    get_api_url "http://host:8080" "api/models" = "http://host:8080/api/models" ∧
    get_api_url "http://host:8080/" "api/models" = "http://host:8080/api/models" := by
  refine ⟨?_, ?_, by decide, by decide, by decide⟩
  · simp only [get_api_url, rstripSlash_append_slash]
  · simp only [get_api_url, if_neg (slash_append_ne_empty p), if_neg hp,
      lstripSlash_cons_slash]

/-- Claim C5 witness: the concrete base and the slash-free models path. -/
theorem c5_url_join_witness :
    get_api_url ("http://host:8080" ++ "/") "api/models" =
      get_api_url "http://host:8080" "api/models" ∧
    get_api_url "http://host:8080" ("/" ++ "api/models") =
      get_api_url "http://host:8080" "api/models" ∧
    get_api_url "http://host:8080" "/api/models" = "http://host:8080/api/models" ∧
    get_api_url "http://host:8080" "api/models" = "http://host:8080/api/models" ∧
    get_api_url "http://host:8080/" "api/models" = "http://host:8080/api/models" :=
  c5_url_join "http://host:8080" "api/models" (by decide)

/-- Claim C6: a 200 response returns the decoded JSON body as the
payload, and when the body is not valid JSON it returns the raw body
text wrapped in a message object — in both cases a payload, never an
error. -/
theorem c6_200_json_or_text (r : HttpResponse) (h : r.status = 200) :
    (r.jsonBody = none →
      make_request (.response r) = .payload (.obj [("message", .str r.text)])) ∧
    ∀ j, r.jsonBody = some j → make_request (.response r) = .payload j := by
  constructor
  · intro hb
    simp [make_request, h, hb]
  · intro j hb
    simp [make_request, h, hb]

/-- Claim C6 witness: a concrete 200 response with an undecodable body. -/
theorem c6_200_json_or_text_witness :
    make_request (.response resp200text) =
      .payload (.obj [("message", .str resp200text.text)]) :=
  (c6_200_json_or_text resp200text rfl).1 rfl

/-- Claim C7: a 204 response yields the fixed Success message whatever
its body holds (the body is never read), and a 201 response whose body
fails to decode yields the fixed Created successfully message. -/
theorem c7_204_and_201 (reason text : String) (jb : Option Json) (r : HttpResponse) :
    make_request (.response { status := 204, reason := reason, text := text, jsonBody := jb }) =
      .payload (.obj [("message", .str "Success")]) ∧
    (r.status = 201 → r.jsonBody = none →
      make_request (.response r) = .payload (.obj [("message", .str "Created successfully")])) := by
  constructor
  · rfl
  · intro h hb
    simp [make_request, h, hb]

/-- Concrete 204 response with a nonempty body that would even decode. -/
def resp204arr : HttpResponse :=
  { status := 204, reason := "No Content", text := "ignored", jsonBody := some (.arr []) }

/-- Claim C7 witness: a 204 response with a nonempty undecoded body and
a concrete 201 response with an undecodable body. -/
theorem c7_204_and_201_witness :
    make_request (.response resp204arr) =
      .payload (.obj [("message", .str "Success")]) ∧
    make_request (.response resp201empty) =
      .payload (.obj [("message", .str "Created successfully")]) :=
  ⟨(c7_204_and_201 "No Content" "ignored" (some (.arr [])) resp201empty).1,
   (c7_204_and_201 "No Content" "ignored" (some (.arr [])) resp201empty).2 rfl rfl⟩

/-- Claim C8, counterexample: calling the worker-registration facade
with an empty name issues the HTTP POST to /api/workers carrying the
empty name; no validation error precedes the network call. -/
theorem c8_empty_name_still_posts :
    register_worker (registerWorkerCommandData "" "general" none none 1) =
      .httpCall { method := "POST", endpoint := "/api/workers",
                  jsonBody := some (registerWorkerCommandData "" "general" none none 1) } ∧
    (register_worker (registerWorkerCommandData "" "general" none none 1)).isValidationError
      = false :=
  ⟨rfl, rfl⟩

/-- Claim C8 (amended): the worker-registration facade performs no
validation at all: for every worker payload, the one with an empty name
included, it immediately issues POST /api/workers carrying that
payload. -/
theorem c8_register_worker_unvalidated (worker_data : Json) :
    register_worker worker_data =
      .httpCall { method := "POST", endpoint := "/api/workers",
                  jsonBody := some worker_data } :=
  rfl

/-- Claim C9, counterexample: resolution accepts a base URL that is not
a URL together with a negative timeout and negative retries, returning
a configuration instead of failing — the settings class declares no
validators and no ConfigError is ever produced. -/
theorem c9_invalid_values_accepted :
    resolveConfig { api_url := some "not a url", api_timeout := some (-5),
                    api_retries := some (-1) } {} =
      .ok { api_url := "not a url", api_timeout := -5, api_retries := -1 } :=
  rfl

/-- Claim C9 (amended): with no overrides and no environment values the
resolved configuration carries the declared defaults — base URL
"http://localhost:8080", timeout 30 and retries 3 — and resolution
never fails: no value of any source makes it return a ConfigError. -/
theorem c9_defaults_and_no_failure :
    resolveConfig {} {} =
      .ok { api_url := "http://localhost:8080", api_timeout := 30, api_retries := 3 } ∧
    ∀ o e : ConfigSource, ∃ c, resolveConfig o e = .ok c :=
  ⟨rfl, fun _ _ => ⟨_, rfl⟩⟩

/-- Claim C10: whenever a dispatch ends in a BitingLipAPIError, its
status code and decoded-body fields are simultaneously absent exactly
when the failure was a transport-level exception, and an error caused
by an HTTP response always carries that response's status code. -/
theorem c10_apierror_fields (outcome : TransportOutcome) (m : Json)
    (s : Option Nat) (b : Option Json)
    (h : make_request outcome = .apiError m s b) :
    ((s = none ∧ b = none) ↔ outcome.isRequestException = true) ∧
    ∀ r, outcome = .response r → s = some r.status := by
  cases outcome with
  | requestException msg =>
    injection h with h1 h2 h3
    subst h2
    subst h3
    constructor
    · simp [TransportOutcome.isRequestException]
    · intro r hr
      exact TransportOutcome.noConfusion hr
  | response r =>
    have hs := make_request_response_status r m s b h
    constructor
    · simp [TransportOutcome.isRequestException, hs]
    · intro r' hr
      injection hr with hrr
      subst hrr
      exact hs

/-- Claim C10 witness: a connection-refused transport failure yields an
error with both fields absent. -/
theorem c10_apierror_fields_witness :
    ((none = (none : Option Nat) ∧ none = (none : Option Json)) ↔
      (TransportOutcome.requestException "connection refused").isRequestException = true) ∧
    ∀ r, TransportOutcome.requestException "connection refused" = TransportOutcome.response r →
      (none : Option Nat) = some r.status :=
  c10_apierror_fields (.requestException "connection refused")
    (.str ("Request failed: " ++ "connection refused")) none none rfl
